import Mathlib

/-!
Verification of the Euler liquidity watcher (src/liquidityWatcher.py).

The program is a single polling loop. Each cycle fetches the vault's
available liquidity through four chain calls, scales the raw balance,
reports the change against the previous reading, applies a stateful
threshold-crossing alert policy, and sleeps. We embed the pure logic of
that loop: chain values are rationals, the chain reader and the HTTP
notifier are oracles given as explicit inputs, and exceptions become
explicit Except or Option results.
-/

namespace LiquidityWatcher

/-- Default for CHECK_INTERVAL (seconds), liquidityWatcher.py line 14. -/
def CHECK_INTERVAL_DEFAULT : ℕ := 3600

/-- Default for LIQUIDITY_THRESHOLD, liquidityWatcher.py line 15. -/
def LIQUIDITY_THRESHOLD_DEFAULT : ℚ := 5000

/-- The fixed recovery delay of the except-branch of the loop body,
liquidityWatcher.py line 235. -/
def ERROR_BACKOFF_SLEEP : ℕ := 300

/-- Python truthiness of an optional environment string: unset (None) and
the empty string are falsy, any other string is truthy. -/
def truthy : Option String → Bool
  | none => false
  | some s => !(s == "")

/-- The chain reader oracle: the four view calls made by
get_available_liquidity, each of which may fail. The asset address
returned by the vault call feeds the three asset-contract calls, and
balanceOf additionally takes the owner (vault) address. -/
structure ChainReader where
  asset : Except String String
  decimals : String → Except String ℕ
  symbol : String → Except String String
  balanceOf : String → String → Except String ℕ

/-- The snapshot dictionary returned by get_available_liquidity,
liquidityWatcher.py lines 126-131. -/
structure LiquidityData where
  raw : ℕ
  formatted : ℚ
  symbol : String
  decimals : ℕ
deriving Repr, DecidableEq

/-- get_available_liquidity, liquidityWatcher.py lines 104-135: the four
chain calls in source order; any failure is caught by the surrounding
try/except and becomes None. The scaled value is raw / 10 ^ decimals
(line 124). -/
def get_available_liquidity (r : ChainReader) (vault_address : String) :
    Option LiquidityData :=
  match r.asset with
  | .error _ => none
  | .ok asset_address =>
    match r.decimals asset_address with
    | .error _ => none
    | .ok decimals =>
      match r.symbol asset_address with
      | .error _ => none
      | .ok symbol =>
        match r.balanceOf asset_address vault_address with
        | .error _ => none
        | .ok available_liquidity =>
          some { raw := available_liquidity
                 formatted := (available_liquidity : ℚ) / 10 ^ decimals
                 symbol := symbol
                 decimals := decimals }

/-- send_telegram_message, liquidityWatcher.py lines 78-102. The HTTP
outcome of requests.post is an oracle input: none models an exception,
some code models a response with that status code. Missing credentials
short-circuit to False before any HTTP request; only a 200 response
yields True. -/
def send_telegram_message (token chat_id : Option String)
    (postOutcome : Option ℕ) : Bool :=
  if !truthy token || !truthy chat_id then false
  else
    match postOutcome with
    | none => false
    | some status_code => if status_code = 200 then true else false

/-- The mutable loop state of monitor_liquidity, liquidityWatcher.py
lines 169-170: previous_liquidity (None before the first successful
read) and the alert_sent flag. -/
structure MonitorState where
  previous_liquidity : Option ℚ
  alert_sent : Bool
deriving Repr, DecidableEq

/-- Sign classification of the printed variation,
liquidityWatcher.py lines 191-196. -/
inductive DeltaSign where
  | positive
  | negative
  | unchanged
deriving Repr, DecidableEq

/-- classify the change as printed: positive for change > 0, negative for
change < 0, unchanged otherwise (lines 191-196). -/
def classifyChange (change : ℚ) : DeltaSign :=
  if 0 < change then DeltaSign.positive
  else if change < 0 then DeltaSign.negative
  else DeltaSign.unchanged

/-- The variation report of one cycle, liquidityWatcher.py lines 187-196:
produced only when a previous value exists; change = liquidity - previous,
change_pct = change / previous * 100 when previous is nonzero, else 0. -/
def cycleReport (prev : Option ℚ) (liquidity : ℚ) :
    Option (ℚ × ℚ × DeltaSign) :=
  match prev with
  | none => none
  | some previous_liquidity =>
    let change := liquidity - previous_liquidity
    let change_pct := if previous_liquidity ≠ 0 then change / previous_liquidity * 100 else 0
    some (change, change_pct, classifyChange change)

/-- Observable outcome of one iteration of the while loop: the state after
the iteration, the printed variation report, whether a threshold alert was
delivered this cycle, and how long the loop then sleeps (seconds). -/
structure CycleResult where
  state : MonitorState
  report : Option (ℚ × ℚ × DeltaSign)
  notified : Bool
  sleep : ℕ
deriving Repr, DecidableEq

/-- One iteration of the while-loop body of monitor_liquidity,
liquidityWatcher.py lines 172-235, with the fetch outcome and the send
outcome supplied as oracles. On a failed fetch (None) the body skips the
whole if-block and sleeps the check interval. On a successful fetch it
computes the variation report, runs the threshold check of lines 199-219
(alert attempted only when liquidity ≥ threshold and the flag is not yet
set; the flag becomes True only when the send returns True; a reading
below the threshold clears the flag), unconditionally stores the new
scaled value as previous (line 221), and sleeps the check interval
(line 225). -/
def monitorCycle (threshold : ℚ) (check_interval : ℕ) (fetch : Option ℚ)
    (sendOk : Bool) (s : MonitorState) : CycleResult :=
  match fetch with
  | none =>
    { state := s, report := none, notified := false, sleep := check_interval }
  | some liquidity =>
    let report := cycleReport s.previous_liquidity liquidity
    if threshold ≤ liquidity then
      if s.alert_sent then
        { state := { previous_liquidity := some liquidity, alert_sent := true }
          report := report, notified := false, sleep := check_interval }
      else if sendOk then
        { state := { previous_liquidity := some liquidity, alert_sent := true }
          report := report, notified := true, sleep := check_interval }
      else
        { state := { previous_liquidity := some liquidity, alert_sent := false }
          report := report, notified := false, sleep := check_interval }
    else
      { state := { previous_liquidity := some liquidity, alert_sent := false }
        report := report, notified := false, sleep := check_interval }

/-- One full poll cycle including the fetch: the loop body runs
get_available_liquidity and feeds its formatted value (if any) to the
rest of the body. All operations of the body are total here because the
fetch catches its own chain errors (lines 133-135), so the except-branch
of lines 232-235 is not reached by a fetch failure. -/
def loopStep (threshold : ℚ) (check_interval : ℕ) (r : ChainReader)
    (vault_address : String) (sendOk : Bool) (s : MonitorState) : CycleResult :=
  monitorCycle threshold check_interval
    (Option.map LiquidityData.formatted (get_available_liquidity r vault_address))
    sendOk s

/-- Iterated loop state over a list of cycles; each cycle supplies a fetch
outcome and a send outcome. -/
def runState (threshold : ℚ) (check_interval : ℕ) (s : MonitorState) :
    List (Option ℚ × Bool) → MonitorState
  | [] => s
  | (fetch, sendOk) :: rest =>
    runState threshold check_interval
      (monitorCycle threshold check_interval fetch sendOk s).state rest

/-- The per-cycle delivered-notification trace over a list of cycles. -/
def notifTrace (threshold : ℚ) (check_interval : ℕ) (s : MonitorState) :
    List (Option ℚ × Bool) → List Bool
  | [] => []
  | (fetch, sendOk) :: rest =>
    (monitorCycle threshold check_interval fetch sendOk s).notified ::
      notifTrace threshold check_interval
        (monitorCycle threshold check_interval fetch sendOk s).state rest

/-- The most recent successful fetch value in a list of cycle inputs. -/
def lastFetch : List (Option ℚ × Bool) → Option ℚ
  | [] => none
  | (fetch, _) :: rest =>
    match lastFetch rest with
    | some v => some v
    | none => fetch

/-- Startup actions of the main block, liquidityWatcher.py lines 237-248. -/
inductive MainAction where
  | printVaultGuidance
  | printTelegramGuidance
  | runMonitor
deriving Repr, DecidableEq

/-- The dispatch of the main block, liquidityWatcher.py lines 237-248:
a falsy vault address prints vault guidance and exits; otherwise a falsy
bot token or chat id prints Telegram guidance and exits; only when all
three are truthy does monitor_liquidity run. -/
def mainDispatch (vault_address telegram_bot_token telegram_chat_id :
    Option String) : MainAction :=
  if !truthy vault_address then MainAction.printVaultGuidance
  else if !truthy telegram_bot_token || !truthy telegram_chat_id then
    MainAction.printTelegramGuidance
  else MainAction.runMonitor

/-! Step lemmas: the four ways one successful-fetch cycle can go, plus the
failed-fetch cycle. -/

theorem monitorCycle_fetch_none (threshold : ℚ) (ci : ℕ) (sendOk : Bool)
    (s : MonitorState) :
    monitorCycle threshold ci none sendOk s =
      { state := s, report := none, notified := false, sleep := ci } := rfl

theorem monitorCycle_below (threshold : ℚ) (ci : ℕ) (v : ℚ) (sendOk : Bool)
    (p : Option ℚ) (b : Bool) (h : v < threshold) :
    monitorCycle threshold ci (some v) sendOk ⟨p, b⟩ =
      { state := ⟨some v, false⟩, report := cycleReport p v,
        notified := false, sleep := ci } := by
  simp [monitorCycle, not_le.mpr h]

theorem monitorCycle_above_fresh (threshold : ℚ) (ci : ℕ) (v : ℚ)
    (p : Option ℚ) (h : threshold ≤ v) :
    monitorCycle threshold ci (some v) true ⟨p, false⟩ =
      { state := ⟨some v, true⟩, report := cycleReport p v,
        notified := true, sleep := ci } := by
  simp [monitorCycle, h]

theorem monitorCycle_above_suppressed (threshold : ℚ) (ci : ℕ) (v : ℚ)
    (sendOk : Bool) (p : Option ℚ) (h : threshold ≤ v) :
    monitorCycle threshold ci (some v) sendOk ⟨p, true⟩ =
      { state := ⟨some v, true⟩, report := cycleReport p v,
        notified := false, sleep := ci } := by
  simp [monitorCycle, h]

theorem monitorCycle_above_sendfail (threshold : ℚ) (ci : ℕ) (v : ℚ)
    (p : Option ℚ) (h : threshold ≤ v) :
    monitorCycle threshold ci (some v) false ⟨p, false⟩ =
      { state := ⟨some v, false⟩, report := cycleReport p v,
        notified := false, sleep := ci } := by
  simp [monitorCycle, h]

/-- A cycle can only leave the alert flag set if its reading was at or
above the threshold. -/
theorem alert_sent_requires_above (threshold : ℚ) (ci : ℕ) (v : ℚ)
    (sendOk : Bool) (s : MonitorState)
    (h : (monitorCycle threshold ci (some v) sendOk s).state.alert_sent = true) :
    threshold ≤ v := by
  by_contra hc
  cases s with
  | mk p b =>
    rw [monitorCycle_below threshold ci v sendOk p b (not_le.mp hc)] at h
    simp at h

/-- A send attempt with missing credentials, a non-200 response, or an
exception during the HTTP post returns False. -/
theorem send_telegram_message_fails (token chat : Option String)
    (post : Option ℕ)
    (h : truthy token = false ∨ truthy chat = false ∨ post ≠ some 200) :
    send_telegram_message token chat post = false := by
  rcases h with h | h | h
  · simp [send_telegram_message, h]
  · simp [send_telegram_message, h]
  · unfold send_telegram_message
    split
    · rfl
    · rcases post with _ | n
      · rfl
      · have hn : n ≠ 200 := fun he => h (by rw [he])
        simp [hn]

/-- Claim C10: a successful-fetch cycle stores the new scaled reading as
the previous value regardless of the threshold comparison or the send
outcome, and a failed-fetch cycle leaves the whole monitor state
unchanged. -/
theorem previous_value_frame (threshold : ℚ) (ci : ℕ) (v : ℚ)
    (sendOk : Bool) (s : MonitorState) :
    (monitorCycle threshold ci (some v) sendOk s).state.previous_liquidity
      = some v ∧
    (monitorCycle threshold ci none sendOk s).state = s := by
  constructor
  · simp only [monitorCycle]
    split_ifs <;> rfl
  · rfl

/-- Claim C5: when a previous value v1 exists and the new reading is v2,
the reported delta is v2 - v1, the reported percentage is 0 when v1 = 0
and (v2 - v1) / v1 * 100 otherwise, and the sign classification is
positive, negative, or unchanged exactly when v2 > v1, v2 < v1, or
v2 = v1. -/
theorem change_report_correct (threshold : ℚ) (ci : ℕ) (v1 v2 : ℚ)
    (sendOk : Bool) (s : MonitorState)
    (hprev : s.previous_liquidity = some v1) :
    (monitorCycle threshold ci (some v2) sendOk s).report =
      some (v2 - v1,
        if v1 = 0 then 0 else (v2 - v1) / v1 * 100,
        if v1 < v2 then DeltaSign.positive
        else if v2 < v1 then DeltaSign.negative
        else DeltaSign.unchanged) := by
  have hrep : (monitorCycle threshold ci (some v2) sendOk s).report =
      cycleReport s.previous_liquidity v2 := by
    simp only [monitorCycle]
    split_ifs <;> rfl
  rw [hrep, hprev]
  simp only [cycleReport, classifyChange, sub_pos, sub_neg]
  by_cases h0 : v1 = 0 <;> simp [h0]

/-- Witness for change_report_correct at previous value 10, new value 30:
the report is a delta of 20, a percentage of 200, classified positive. -/
theorem change_report_correct_witness :
    (monitorCycle 5000 3600 (some 30) true ⟨some 10, false⟩).report =
      some (20, 200, DeltaSign.positive) := by
  have h := change_report_correct 5000 3600 10 30 true ⟨some 10, false⟩ rfl
  rw [h]
  norm_num

/-- Claim C8: when the four chain calls succeed, the fetched snapshot
scales the raw integer balance to raw / 10 ^ decimals; in particular
123456 with 6 decimals scales to 0.123456, and a zero balance scales to
0 for every decimals value. -/
theorem scaling_correct (r : ChainReader) (vault a sym : String)
    (d raw : ℕ)
    (h1 : r.asset = Except.ok a) (h2 : r.decimals a = Except.ok d)
    (h3 : r.symbol a = Except.ok sym)
    (h4 : r.balanceOf a vault = Except.ok raw) :
    get_available_liquidity r vault =
      some { raw := raw, formatted := (raw : ℚ) / 10 ^ d,
             symbol := sym, decimals := d } ∧
    ((123456 : ℚ) / 10 ^ 6 = 0.123456) ∧
    (∀ d2 : ℕ, (0 : ℚ) / 10 ^ d2 = 0) := by
  refine ⟨?_, by norm_num, fun d2 => by simp⟩
  simp [get_available_liquidity, h1, h2, h3, h4]

/-- A chain reader whose calls all succeed, with a 6-decimal asset and a
raw vault balance of 123456. -/
def sampleReader : ChainReader :=
  { asset := Except.ok "0xasset"
    decimals := fun _ => Except.ok 6
    symbol := fun _ => Except.ok "USDC"
    balanceOf := fun _ _ => Except.ok 123456 }

/-- Witness for scaling_correct on sampleReader. -/
theorem scaling_correct_witness :
    get_available_liquidity sampleReader "0xvault" =
      some { raw := 123456, formatted := (123456 : ℚ) / 10 ^ 6,
             symbol := "USDC", decimals := 6 } ∧
    ((123456 : ℚ) / 10 ^ 6 = 0.123456) ∧
    (∀ d2 : ℕ, (0 : ℚ) / 10 ^ d2 = 0) :=
  scaling_correct sampleReader "0xvault" "0xasset" "USDC" 6 123456
    rfl rfl rfl rfl

/-- Claim C7: an error on any of the four chain calls makes
get_available_liquidity return none; the function is total, so no
exception propagates to the caller. -/
theorem fetch_error_yields_none (r : ChainReader) (vault : String)
    (h : (∃ e, r.asset = Except.error e) ∨
         (∃ a e, r.asset = Except.ok a ∧ r.decimals a = Except.error e) ∨
         (∃ a e, r.asset = Except.ok a ∧ r.symbol a = Except.error e) ∨
         (∃ a e, r.asset = Except.ok a ∧
           r.balanceOf a vault = Except.error e)) :
    get_available_liquidity r vault = none := by
  rcases h with ⟨e, he⟩ | ⟨a, e, ha, he⟩ | ⟨a, e, ha, he⟩ | ⟨a, e, ha, he⟩
  · simp [get_available_liquidity, he]
  · simp [get_available_liquidity, ha, he]
  · rcases hd : r.decimals a with e2 | d
    · simp [get_available_liquidity, ha, hd]
    · simp [get_available_liquidity, ha, hd, he]
  · rcases hd : r.decimals a with e2 | d
    · simp [get_available_liquidity, ha, hd]
    · rcases hs : r.symbol a with e2 | sym
      · simp [get_available_liquidity, ha, hd, hs]
      · simp [get_available_liquidity, ha, hd, hs, he]

/-- A chain reader whose decimals call reverts. -/
def decimalsFailingReader : ChainReader :=
  { asset := Except.ok "0xasset"
    decimals := fun _ => Except.error "execution reverted"
    symbol := fun _ => Except.ok "USDC"
    balanceOf := fun _ _ => Except.ok 1 }

/-- Witness for fetch_error_yields_none on a reader whose decimals call
fails. -/
theorem fetch_error_yields_none_witness :
    get_available_liquidity decimalsFailingReader "0xvault" = none :=
  fetch_error_yields_none decimalsFailingReader "0xvault"
    (Or.inr (Or.inl ⟨"0xasset", "execution reverted", rfl, rfl⟩))

/-- Claim C9: a falsy vault address makes the main block print vault
guidance and stop; that action is distinct from running the monitor, so
the loop never starts and no chain or HTTP call is made. -/
theorem missing_vault_terminates (vault token chat : Option String)
    (h : truthy vault = false) :
    mainDispatch vault token chat = MainAction.printVaultGuidance ∧
    MainAction.printVaultGuidance ≠ MainAction.runMonitor := by
  refine ⟨?_, by decide⟩
  simp [mainDispatch, h]

/-- Witness for missing_vault_terminates with the vault address unset. -/
theorem missing_vault_terminates_witness :
    mainDispatch none (some "token") (some "42") =
      MainAction.printVaultGuidance ∧
    MainAction.printVaultGuidance ≠ MainAction.runMonitor :=
  missing_vault_terminates none (some "token") (some "42") rfl

/-- Counterexample to claim C2: with the vault address set but the bot
token unset, the main block does not run the monitor loop at all. -/
theorem missing_credentials_refuses_to_run :
    mainDispatch (some "0x1234") none (some "42") ≠
      MainAction.runMonitor := by
  decide

/-- Claim C2 as amended: when the vault address is truthy but the bot
token or chat id is falsy, the main block prints Telegram-configuration
guidance and terminates instead of starting the monitor; the send
function itself would skip sending and return False with those
credentials. -/
theorem missing_credentials_prints_guidance (vault token chat :
    Option String) (hv : truthy vault = true)
    (h : truthy token = false ∨ truthy chat = false) :
    mainDispatch vault token chat = MainAction.printTelegramGuidance ∧
    ∀ post, send_telegram_message token chat post = false := by
  constructor
  · rcases h with h | h <;> simp [mainDispatch, hv, h]
  · intro post
    exact send_telegram_message_fails token chat post
      (by rcases h with h | h
          · exact Or.inl h
          · exact Or.inr (Or.inl h))

/-- Witness for missing_credentials_prints_guidance with the bot token
unset. -/
theorem missing_credentials_prints_guidance_witness :
    mainDispatch (some "0x1234") none (some "42") =
      MainAction.printTelegramGuidance ∧
    ∀ post, send_telegram_message none (some "42") post = false :=
  missing_credentials_prints_guidance (some "0x1234") none (some "42")
    rfl (Or.inl rfl)

/-- A chain reader on an unreachable endpoint: every call fails. -/
def unreachableReader : ChainReader :=
  { asset := Except.error "connection timeout"
    decimals := fun _ => Except.error "connection timeout"
    symbol := fun _ => Except.error "connection timeout"
    balanceOf := fun _ _ => Except.error "connection timeout" }

/-- Counterexample to claim C3: a cycle whose chain calls all fail sleeps
the default check interval of 3600 seconds, not the 300-second error
backoff; the fetch catches its own errors and returns none, so the
except-branch of the loop body is not reached. -/
theorem fetch_failure_not_error_backoff :
    (loopStep LIQUIDITY_THRESHOLD_DEFAULT CHECK_INTERVAL_DEFAULT
      unreachableReader "0xvault" true ⟨none, false⟩).sleep ≠
      ERROR_BACKOFF_SLEEP := by
  decide

/-- Claim C3 as amended: a cycle whose fetch fails skips the whole
processing block, leaves the state unchanged, and sleeps the normal
check interval; the 300-second backoff applies only to exceptions raised
in the loop body outside the fetch, which absorbs its own errors. -/
theorem fetch_failure_sleeps_check_interval (threshold : ℚ) (ci : ℕ)
    (r : ChainReader) (vault : String) (sendOk : Bool) (s : MonitorState)
    (h : get_available_liquidity r vault = none) :
    (loopStep threshold ci r vault sendOk s).sleep = ci ∧
    (loopStep threshold ci r vault sendOk s).state = s := by
  unfold loopStep
  rw [h]
  exact ⟨rfl, rfl⟩

/-- Witness for fetch_failure_sleeps_check_interval on the unreachable
reader. -/
theorem fetch_failure_sleeps_check_interval_witness :
    (loopStep 5000 3600 unreachableReader "0xvault" true
      ⟨none, false⟩).sleep = 3600 ∧
    (loopStep 5000 3600 unreachableReader "0xvault" true
      ⟨none, false⟩).state = ⟨none, false⟩ :=
  fetch_failure_sleeps_check_interval 5000 3600 unreachableReader
    "0xvault" true ⟨none, false⟩ rfl

/-- Claim C4: in a qualifying cycle (reading at or above threshold,
alert flag false) the flag after the cycle equals the send outcome, so a
failed send leaves it false for a retry and only a confirmed success
sets it; and the send returns False whenever credentials are missing,
the response is not 200, or the post raises. -/
theorem alert_flag_tracks_send_success (threshold : ℚ) (ci : ℕ) (v : ℚ)
    (sendOk : Bool) (s : MonitorState) (hv : threshold ≤ v)
    (hs : s.alert_sent = false) :
    (monitorCycle threshold ci (some v) sendOk s).state.alert_sent =
      sendOk ∧
    ∀ token chat post,
      (truthy token = false ∨ truthy chat = false ∨ post ≠ some 200) →
      send_telegram_message token chat post = false := by
  constructor
  · cases s with
    | mk p b =>
      have hb : b = false := hs
      subst hb
      cases sendOk
      · rw [monitorCycle_above_sendfail threshold ci v p hv]
      · rw [monitorCycle_above_fresh threshold ci v p hv]
  · exact fun token chat post h =>
      send_telegram_message_fails token chat post h

/-- Witness for alert_flag_tracks_send_success: reading 6000 against
threshold 5000 with a failing send leaves the flag false. -/
theorem alert_flag_tracks_send_success_witness :
    (monitorCycle 5000 3600 (some 6000) false
      ⟨none, false⟩).state.alert_sent = false ∧
    ∀ token chat post,
      (truthy token = false ∨ truthy chat = false ∨ post ≠ some 200) →
      send_telegram_message token chat post = false :=
  alert_flag_tracks_send_success 5000 3600 6000 false ⟨none, false⟩
    (by norm_num) rfl

/-- While the alert flag is set, a run of successful readings all at or
above the threshold delivers no further notifications and keeps the flag
set. -/
theorem notifTrace_all_suppressed (threshold : ℚ) (ci : ℕ) :
    ∀ (l : List (Option ℚ × Bool)) (p : Option ℚ),
      (∀ x ∈ l, ∃ v, x.1 = some v ∧ threshold ≤ v) →
      notifTrace threshold ci ⟨p, true⟩ l =
        List.replicate l.length false := by
  intro l
  induction l with
  | nil => intro p _; rfl
  | cons x rest ih =>
    intro p hall
    obtain ⟨f, ok⟩ := x
    obtain ⟨v, hx, hv⟩ := hall (f, ok) (List.mem_cons_self _ _)
    dsimp only at hx
    subst hx
    simp only [notifTrace,
      monitorCycle_above_suppressed threshold ci v ok p hv,
      List.length_cons, List.replicate_succ]
    exact congrArg (List.cons false)
      (ih (some v) (fun y hy => hall y (List.mem_cons_of_mem _ hy)))

/-- Claim C1: over the five-cycle run [below, above, above, below, above]
with every send succeeding, exactly the cycles at indices 1 and 4 deliver
a notification; and in general, once the flag is set, an unbroken run of
readings at or above the threshold delivers no further notifications. -/
theorem alert_once_per_excursion (threshold : ℚ) (ci : ℕ)
    (v0 v1 v2 v3 v4 : ℚ)
    (h0 : v0 < threshold) (h1 : threshold ≤ v1) (h2 : threshold ≤ v2)
    (h3 : v3 < threshold) (h4 : threshold ≤ v4) :
    notifTrace threshold ci ⟨none, false⟩
      [(some v0, true), (some v1, true), (some v2, true),
       (some v3, true), (some v4, true)] =
      [false, true, false, false, true] ∧
    ∀ (p : Option ℚ) (l : List (Option ℚ × Bool)),
      (∀ x ∈ l, ∃ v, x.1 = some v ∧ threshold ≤ v) →
      notifTrace threshold ci ⟨p, true⟩ l =
        List.replicate l.length false := by
  constructor
  · simp only [notifTrace,
      monitorCycle_below threshold ci v0 true none false h0,
      monitorCycle_above_fresh threshold ci v1 (some v0) h1,
      monitorCycle_above_suppressed threshold ci v2 true (some v1) h2,
      monitorCycle_below threshold ci v3 true (some v2) true h3,
      monitorCycle_above_fresh threshold ci v4 (some v3) h4]
  · exact fun p l hall => notifTrace_all_suppressed threshold ci l p hall

/-- Witness for alert_once_per_excursion: threshold 5000 against the
readings 1000, 6000, 7000, 2000, 8000. -/
theorem alert_once_per_excursion_witness :
    notifTrace 5000 3600 ⟨none, false⟩
      [(some 1000, true), (some 6000, true), (some 7000, true),
       (some 2000, true), (some 8000, true)] =
      [false, true, false, false, true] ∧
    ∀ (p : Option ℚ) (l : List (Option ℚ × Bool)),
      (∀ x ∈ l, ∃ v, x.1 = some v ∧ (5000 : ℚ) ≤ v) →
      notifTrace 5000 3600 ⟨p, true⟩ l =
        List.replicate l.length false :=
  alert_once_per_excursion 5000 3600 1000 6000 7000 2000 8000
    (by norm_num) (by norm_num) (by norm_num) (by norm_num) (by norm_num)

/-- Running the loop from any state: if the final alert flag is set, the
last successful fetch in the run was at or above the threshold, or there
was no successful fetch and the flag was already set at the start. -/
theorem runState_alert_flag (threshold : ℚ) (ci : ℕ) :
    ∀ (l : List (Option ℚ × Bool)) (s : MonitorState),
      (runState threshold ci s l).alert_sent = true →
      (∃ v, lastFetch l = some v ∧ threshold ≤ v) ∨
      (lastFetch l = none ∧ s.alert_sent = true) := by
  intro l
  induction l with
  | nil => intro s h; exact Or.inr ⟨rfl, h⟩
  | cons x rest ih =>
    intro s h
    obtain ⟨f, ok⟩ := x
    simp only [runState] at h
    rcases ih _ h with ⟨v, hlast, hv⟩ | ⟨hnone, hflag⟩
    · exact Or.inl ⟨v, by simp [lastFetch, hlast], hv⟩
    · rcases f with _ | v
      · rw [monitorCycle_fetch_none] at hflag
        exact Or.inr ⟨by simp [lastFetch, hnone], hflag⟩
      · have hv : threshold ≤ v :=
          alert_sent_requires_above threshold ci v ok s hflag
        exact Or.inl ⟨v, by simp [lastFetch, hnone], hv⟩

/-- Claim C6: starting from the initial state, the alert flag is set only
if the most recent successful reading of the run was at or above the
threshold; and any reading below the threshold clears the flag in that
same cycle, whatever the state was. -/
theorem alert_flag_invariant (threshold : ℚ) (ci : ℕ)
    (l : List (Option ℚ × Bool))
    (h : (runState threshold ci ⟨none, false⟩ l).alert_sent = true) :
    (∃ v, lastFetch l = some v ∧ threshold ≤ v) ∧
    ∀ (v : ℚ) (sendOk : Bool) (s : MonitorState), v < threshold →
      (monitorCycle threshold ci (some v) sendOk s).state.alert_sent =
        false := by
  constructor
  · rcases runState_alert_flag threshold ci l ⟨none, false⟩ h with
      hl | ⟨_, hflag⟩
    · exact hl
    · simp at hflag
  · intro v sendOk s hv
    cases s with
    | mk p b => rw [monitorCycle_below threshold ci v sendOk p b hv]

/-- Witness for alert_flag_invariant: a single successful reading of 6000
against threshold 5000 sets the flag, and the last fetch of that run is
indeed at or above the threshold. -/
theorem alert_flag_invariant_witness :
    (∃ v, lastFetch [((some 6000 : Option ℚ), true)] = some v ∧
      (5000 : ℚ) ≤ v) ∧
    ∀ (v : ℚ) (sendOk : Bool) (s : MonitorState), v < 5000 →
      (monitorCycle 5000 3600 (some v) sendOk s).state.alert_sent =
        false :=
  alert_flag_invariant 5000 3600 [(some 6000, true)] (by decide)

end LiquidityWatcher
